import Mathlib

/-!
Verification of the BTM snapshot lifecycle engine (`src/lib.rs`).

The crate's root file `lib.rs` holds the configuration type `BtmCfg`, the
two enums `SnapMode` and `SnapAlgo`, and the lifecycle orchestrator methods
(`snapshot`, `rollback`, `get_sorted_snapshots`, `guess_mode`, `get_cap`,
`clean_snapshots`).  The three backend-driver modules (`zfs`, `btrfs`,
`external`) are not part of the sources; their behaviour is modelled from
the specification's driver contract and kept abstract wherever possible
(probe results, per-command success) via a `Backend` world record.

Effects performed against the operating system (the `sync` flush, shell
commands issued for the backend) are recorded in an explicit trace so that
ordering properties can be stated.
-/

namespace Btm

/-- `SnapMode` from `lib.rs`: which storage technology backs the volume. -/
inductive SnapMode
  | Zfs
  | Btrfs
  | External
deriving DecidableEq, Repr

/-- `SnapAlgo` from `lib.rs`: retention strategy selector. -/
inductive SnapAlgo
  | Fair
  | Fade
deriving DecidableEq, Repr

/-- `CAP_MAX` from `lib.rs`: maximum number of snapshots that can be kept. -/
def CAP_MAX : Nat := 4096

/-- `STEP_CNT` from `lib.rs`: step count of the Fade algorithm. -/
def STEP_CNT : Nat := 10

/-- `BtmCfg` from `lib.rs`: the snapshot configuration record. -/
structure BtmCfg where
  enable : Bool
  itv : Nat
  cap : Nat
  cap_clean_kept : Nat
  mode : SnapMode
  algo : SnapAlgo
  volume : String
deriving Repr

/-- `BtmCfg::default` from `lib.rs`. -/
def BtmCfg.default : BtmCfg :=
  { enable := false
    itv := 10
    cap := 100
    cap_clean_kept := 0
    mode := SnapMode.Zfs
    algo := SnapAlgo.Fair
    volume := "zfs/data" }

/-- `BtmCfg::get_cap` from `lib.rs`: `alt!(self.cap > CAP_MAX, CAP_MAX, self.cap)`. -/
def BtmCfg.get_cap (c : BtmCfg) : Nat :=
  if c.cap > CAP_MAX then CAP_MAX else c.cap

/-- Rust's `str::to_lowercase`, modelled character-wise (the enum names are
ASCII, where the two agree). -/
def toLowercase (s : String) : String :=
  ⟨s.data.map Char.toLower⟩

/-- `SnapMode::from_string` from `lib.rs`: case-insensitive parse. -/
def SnapMode.from_string (m : String) : Except String SnapMode :=
  match toLowercase m with
  | "zfs" => Except.ok SnapMode.Zfs
  | "btrfs" => Except.ok SnapMode.Btrfs
  | "external" => Except.ok SnapMode.External
  | _ => Except.error "eg"

/-- The `fmt::Display` implementation for `SnapMode` in `lib.rs`. -/
def SnapMode.toString : SnapMode → String
  | SnapMode.Zfs => "Zfs"
  | SnapMode.Btrfs => "Btrfs"
  | SnapMode.External => "External"

/-- `SnapAlgo::from_string` from `lib.rs`: case-insensitive parse. -/
def SnapAlgo.from_string (m : String) : Except String SnapAlgo :=
  match toLowercase m with
  | "fair" => Except.ok SnapAlgo.Fair
  | "fade" => Except.ok SnapAlgo.Fade
  | _ => Except.error "eg"

/-- The `fmt::Display` implementation for `SnapAlgo` in `lib.rs`. -/
def SnapAlgo.toString : SnapAlgo → String
  | SnapAlgo.Fair => "Fair"
  | SnapAlgo.Fade => "Fade"

/-- An observable effect performed against the operating system by the
lifecycle orchestrator or a backend driver. -/
inductive Effect
  | sync
  | createSnap (mode : SnapMode) (volume : String) (height : Nat)
  | revert (mode : SnapMode) (volume : String) (height : Nat)
  | execCmd (cmd : String)
deriving DecidableEq, Repr

/-- The abstract world the backend drivers act on: the probe results of the
two filesystem technologies, the retained snapshot set (heights, newest
first, as the drivers' listing reports it), and oracles for the success of
the underlying tool invocations. -/
structure Backend where
  zfsVol : String → Bool
  btrfsVol : String → Bool
  snaps : List Nat
  listOk : Bool
  createOk : Bool
  deleteOk : Nat → Bool

/-- Modelled from the spec: `list_snapshots(volume) -> sequence of heights,
descending order` of the `zfs`/`btrfs` drivers (module sources not in the
crate root); an empty sequence is valid and not an error. -/
def driverSortedSnapshots (st : Backend) : Except String (List Nat) :=
  if st.listOk then Except.ok st.snaps else Except.error "ListFailed"

/-- Insert a height into a descending list, keeping it descending. -/
def insertDesc (h : Nat) : List Nat → List Nat
  | [] => [h]
  | x :: xs => if x ≤ h then h :: x :: xs else x :: insertDesc h xs

/-- Modelled from the spec: `create_snapshot(volume, height)` of the
`zfs`/`btrfs` drivers — overwrites an existing snapshot at the same height
and fails with `SnapshotCreateFailed` on any underlying tool error. -/
def driverGenSnapshot (mode : SnapMode) (cfg : BtmCfg) (st : Backend) (idx : Nat) :
    Except String Unit × Backend × List Effect :=
  if st.createOk then
    (Except.ok (),
     { st with snaps := insertDesc idx (st.snaps.filter (fun x => x ≠ idx)) },
     [Effect.createSnap mode cfg.volume idx])
  else
    (Except.error "SnapshotCreateFailed", st, [Effect.createSnap mode cfg.volume idx])

/-- Modelled from the spec: the `external` driver delegates snapshot
creation to an out-of-process tool; creation is the only mutating
operation it supports. -/
def externalGenSnapshot (cfg : BtmCfg) (st : Backend) (idx : Nat) :
    Except String Unit × Backend × List Effect :=
  (Except.ok (), st, [Effect.createSnap SnapMode.External cfg.volume idx])

/-- Modelled from the spec: `rollback(volume, target_height, strict)` of the
`zfs`/`btrfs` drivers — fetch the snapshot set (a missing target is
`TargetNotFound`; an unspecified target selects the most recent snapshot),
reject under strict mode when a newer snapshot exists, otherwise revert and
delete every snapshot newer than the target. -/
def driverRollback (mode : SnapMode) (cfg : BtmCfg) (st : Backend)
    (idx : Option Nat) (strict : Bool) :
    Except String Unit × Backend × List Effect :=
  match driverSortedSnapshots st with
  | Except.error e => (Except.error e, st, [])
  | Except.ok snaps =>
    match (match idx with | some i => some i | none => snaps.head?) with
    | none => (Except.error "TargetNotFound", st, [])
    | some t =>
      if t ∈ snaps then
        if strict && snaps.any (fun x => t < x) then
          (Except.error "StrictRollbackRejected", st, [])
        else
          (Except.ok (),
           { st with snaps := snaps.filter (fun x => x ≤ t) },
           [Effect.revert mode cfg.volume t])
      else (Except.error "TargetNotFound", st, [])

/-- `BtmCfg::snapshot` from `lib.rs`: return `Ok(())` at once when disabled;
otherwise `nix::unistd::sync()` (recorded as `Effect.sync`), then dispatch
on the mode to the driver's snapshot generator. -/
def BtmCfg.snapshot (cfg : BtmCfg) (st : Backend) (idx : Nat) :
    Except String Unit × Backend × List Effect :=
  if !cfg.enable then (Except.ok (), st, [])
  else
    let r := match cfg.mode with
      | SnapMode.Zfs => driverGenSnapshot SnapMode.Zfs cfg st idx
      | SnapMode.Btrfs => driverGenSnapshot SnapMode.Btrfs cfg st idx
      | SnapMode.External => externalGenSnapshot cfg st idx
    (r.1, r.2.1, Effect.sync :: r.2.2)

/-- `BtmCfg::rollback` from `lib.rs`: dispatch on the mode; `External`
fails immediately with a "use the external tool" error. -/
def BtmCfg.rollback (cfg : BtmCfg) (st : Backend) (idx : Option Nat) (strict : Bool) :
    Except String Unit × Backend × List Effect :=
  match cfg.mode with
  | SnapMode.Zfs => driverRollback SnapMode.Zfs cfg st idx strict
  | SnapMode.Btrfs => driverRollback SnapMode.Btrfs cfg st idx strict
  | SnapMode.External =>
      (Except.error "please use `btm` tool in `External` mode", st, [])

/-- `BtmCfg::get_sorted_snapshots` from `lib.rs`: dispatch on the mode;
`External` fails immediately with a "use the external tool" error. -/
def BtmCfg.get_sorted_snapshots (cfg : BtmCfg) (st : Backend) :
    Except String (List Nat) :=
  match cfg.mode with
  | SnapMode.Zfs => driverSortedSnapshots st
  | SnapMode.Btrfs => driverSortedSnapshots st
  | SnapMode.External => Except.error "please use `btm` tool in `External` mode"

/-- `BtmCfg::guess_mode` from `lib.rs`: try `zfs::check` first and map a
success to `Zfs`, or else try `btrfs::check` and map a success to `Btrfs`.
The probes themselves are modelled from the spec as side-effect-free
capability predicates held as `zfsVol`/`btrfsVol` in the `Backend` world. -/
def BtmCfg.guess_mode (st : Backend) (volume : String) : Except String SnapMode :=
  if st.zfsVol volume then Except.ok SnapMode.Zfs
  else if st.btrfsVol volume then Except.ok SnapMode.Btrfs
  else Except.error "NoBackendDetected"

/-- The snapshot naming convention of the spec: `"<volume_identifier>@<height>"`. -/
def snapName (volume : String) (height : Nat) : String :=
  volume ++ "@" ++ Nat.repr height

/-- The per-height deletion command built inside `BtmCfg::clean_snapshots`
(`format!("btrfs subvolume delete {}@{}", ...)` resp.
`format!("zfs destroy {}@{}", ...)`).  The source's `External` arm is
`pnk!(Err(...))`, an abort; it is unreachable because listing has already
failed for `External`, and it is rendered here by a sentinel string. -/
def delCmd (mode : SnapMode) (volume : String) (height : Nat) : String :=
  match mode with
  | SnapMode.Btrfs => "btrfs subvolume delete " ++ volume ++ "@" ++ Nat.repr height
  | SnapMode.Zfs => "zfs destroy " ++ volume ++ "@" ++ Nat.repr height
  | SnapMode.External => "pnk: Unsupported deriver"

/-- `BtmCfg::clean_snapshots` from `lib.rs`: list the snapshots, skip the
`cap_clean_kept` newest, and issue a delete command for each remaining
height, oldest first; each command's result is discarded (`info_omit!`),
so the deletion is best-effort: a height disappears from the set only when
its delete command succeeds (`deleteOk`). -/
def BtmCfg.clean_snapshots (cfg : BtmCfg) (st : Backend) :
    Except String Unit × Backend × List Effect :=
  match cfg.get_sorted_snapshots st with
  | Except.error e => (Except.error e, st, [])
  | Except.ok list =>
    let remaining := st.snaps.filter
      (fun h => !(decide (h ∈ list.drop cfg.cap_clean_kept) && st.deleteOk h))
    (Except.ok (),
     { st with snaps := remaining },
     ((list.drop cfg.cap_clean_kept).reverse).map
       (fun h => Effect.execCmd (delCmd cfg.mode cfg.volume h)))

/-- A concrete enabled Zfs configuration used to instantiate theorems. -/
def cfgZfs : BtmCfg :=
  { enable := true
    itv := 10
    cap := 100
    cap_clean_kept := 0
    mode := SnapMode.Zfs
    algo := SnapAlgo.Fair
    volume := "zfs/data" }

/-- `cfgZfs` with the global switch off. -/
def cfgDisabled : BtmCfg :=
  { cfgZfs with enable := false }

/-- `cfgZfs` in `External` mode. -/
def cfgExt : BtmCfg :=
  { cfgZfs with mode := SnapMode.External }

/-- `cfgZfs` keeping the two newest snapshots across a prune. -/
def cfgKeep2 : BtmCfg :=
  { cfgZfs with cap_clean_kept := 2 }

/-- A concrete backend world: snapshots at heights 30, 20, 10 (newest
first) on a healthy zfs volume. -/
def stDemo : Backend :=
  { zfsVol := fun _ => true
    btrfsVol := fun _ => false
    snaps := [30, 20, 10]
    listOk := true
    createOk := true
    deleteOk := fun _ => true }

/-- C3: `get_cap` returns the configured capacity when it is at most
`CAP_MAX = 4096` and exactly 4096 otherwise; in particular a configured
capacity of 10000 is clamped to exactly 4096. -/
theorem get_cap_clamps_to_cap_max (cfg : BtmCfg) :
    (cfg.cap ≤ CAP_MAX → cfg.get_cap = cfg.cap) ∧
    (CAP_MAX < cfg.cap → cfg.get_cap = CAP_MAX) ∧
    BtmCfg.get_cap { cfg with cap := 10000 } = 4096 := by
  have hc : CAP_MAX = 4096 := rfl
  refine ⟨fun h => ?_, fun h => ?_, ?_⟩
  · rw [hc] at h; simp [BtmCfg.get_cap, hc]; omega
  · rw [hc] at h; simp [BtmCfg.get_cap, hc]; omega
  · simp [BtmCfg.get_cap, hc]

/-- Closed instance of `get_cap_clamps_to_cap_max` at a concrete
configuration. -/
theorem get_cap_clamps_to_cap_max_witness :
    BtmCfg.get_cap cfgZfs = 100 ∧
    BtmCfg.get_cap { cfgZfs with cap := 10000 } = 4096 :=
  ⟨(get_cap_clamps_to_cap_max cfgZfs).1 (by decide),
   (get_cap_clamps_to_cap_max cfgZfs).2.2⟩

/-- C10: `from_string` inverts `Display` for both enums, parsing is
case-insensitive, and a string parses successfully exactly when its
lowercasing is one of the enum's names. -/
theorem enum_string_round_trip :
    (∀ m : SnapMode, SnapMode.from_string (SnapMode.toString m) = Except.ok m) ∧
    (∀ a : SnapAlgo, SnapAlgo.from_string (SnapAlgo.toString a) = Except.ok a) ∧
    (SnapMode.from_string "zfs" = Except.ok SnapMode.Zfs ∧
     SnapMode.from_string "ZFS" = Except.ok SnapMode.Zfs ∧
     SnapMode.from_string "Zfs" = Except.ok SnapMode.Zfs) ∧
    (∀ s : String, (∃ m, SnapMode.from_string s = Except.ok m) ↔
      (toLowercase s = "zfs" ∨ toLowercase s = "btrfs" ∨
        toLowercase s = "external")) ∧
    (∀ s : String, (∃ a, SnapAlgo.from_string s = Except.ok a) ↔
      (toLowercase s = "fair" ∨ toLowercase s = "fade")) := by
  refine ⟨?_, ?_, ⟨rfl, rfl, rfl⟩, ?_, ?_⟩
  · intro m; cases m <;> rfl
  · intro a; cases a <;> rfl
  · intro s
    unfold SnapMode.from_string
    split <;> simp_all
  · intro s
    unfold SnapAlgo.from_string
    split <;> simp_all

/-- Closed instance of `enum_string_round_trip`: case-insensitive parsing
of a concrete string. -/
theorem enum_string_round_trip_witness :
    SnapMode.from_string "ZFS" = Except.ok SnapMode.Zfs :=
  enum_string_round_trip.2.2.1.2.1

/-- C5: `guess_mode` probes zfs before btrfs, returns the first technology
whose probe succeeds, fails with `NoBackendDetected` when neither
succeeds, and never returns `External`. -/
theorem guess_mode_priority (st : Backend) (v : String) :
    (st.zfsVol v = true → BtmCfg.guess_mode st v = Except.ok SnapMode.Zfs) ∧
    (st.zfsVol v = false → st.btrfsVol v = true →
      BtmCfg.guess_mode st v = Except.ok SnapMode.Btrfs) ∧
    (st.zfsVol v = false → st.btrfsVol v = false →
      BtmCfg.guess_mode st v = Except.error "NoBackendDetected") ∧
    BtmCfg.guess_mode st v ≠ Except.ok SnapMode.External := by
  refine ⟨fun h => ?_, fun h1 h2 => ?_, fun h1 h2 => ?_, ?_⟩
  · simp [BtmCfg.guess_mode, h]
  · simp [BtmCfg.guess_mode, h1, h2]
  · simp [BtmCfg.guess_mode, h1, h2]
  · unfold BtmCfg.guess_mode
    split
    · simp
    split <;> simp

/-- Closed instance of `guess_mode_priority`: the demo world's volume is
detected as zfs. -/
theorem guess_mode_priority_witness :
    BtmCfg.guess_mode stDemo "zfs/data" = Except.ok SnapMode.Zfs :=
  (guess_mode_priority stDemo "zfs/data").1 rfl

/-- C1 is false as stated: with the enable flag off, `clean_snapshots`
still prunes.  At a disabled configuration over snapshots `[30, 20, 10]`
with `cap_clean_kept = 0`, the prune issues delete commands and empties
the snapshot set — an observable mutation. -/
theorem clean_snapshots_ignores_disable_counterexample :
    cfgDisabled.enable = false ∧
    stDemo.snaps = [30, 20, 10] ∧
    (BtmCfg.clean_snapshots cfgDisabled stDemo).2.1.snaps = [] ∧
    (BtmCfg.clean_snapshots cfgDisabled stDemo).2.2 ≠ [] := by
  refine ⟨rfl, rfl, by decide, by decide⟩

/-- C1 (amended): with the enable flag off, `snapshot(h)` returns success
with no backend effect and no state change; `clean_snapshots`, however,
never consults the enable flag — it behaves identically whether the
configuration is enabled or disabled. -/
theorem disabled_snapshot_noop (cfg : BtmCfg) (st : Backend) (h : Nat)
    (hd : cfg.enable = false) :
    cfg.snapshot st h = (Except.ok (), st, []) ∧
    cfg.clean_snapshots st =
      BtmCfg.clean_snapshots { cfg with enable := true } st := by
  constructor
  · simp [BtmCfg.snapshot, hd]
  · rfl

/-- Closed instance of `disabled_snapshot_noop` at the disabled demo
configuration. -/
theorem disabled_snapshot_noop_witness :
    BtmCfg.snapshot cfgDisabled stDemo 5 = (Except.ok (), stDemo, []) ∧
    BtmCfg.clean_snapshots cfgDisabled stDemo =
      BtmCfg.clean_snapshots { cfgDisabled with enable := true } stDemo :=
  disabled_snapshot_noop cfgDisabled stDemo 5 rfl

/-- C2: under `External` mode, `rollback` and `get_sorted_snapshots` fail
with the "use the external tool" error, while `snapshot` (when enabled)
still dispatches to the external driver — its trace is the flush followed
by the external create — rather than failing on the mode check. -/
theorem external_mode_gap (cfg : BtmCfg) (st : Backend) (idx : Option Nat)
    (strict : Bool) (h : Nat) (hm : cfg.mode = SnapMode.External)
    (he : cfg.enable = true) :
    cfg.rollback st idx strict =
      (Except.error "please use `btm` tool in `External` mode", st, []) ∧
    cfg.get_sorted_snapshots st =
      Except.error "please use `btm` tool in `External` mode" ∧
    cfg.snapshot st h =
      (Except.ok (), st,
       [Effect.sync, Effect.createSnap SnapMode.External cfg.volume h]) := by
  refine ⟨?_, ?_, ?_⟩
  · simp [BtmCfg.rollback, hm]
  · simp [BtmCfg.get_sorted_snapshots, hm]
  · simp [BtmCfg.snapshot, he, hm, externalGenSnapshot]

/-- Closed instance of `external_mode_gap` at the concrete `External`
configuration. -/
theorem external_mode_gap_witness :
    BtmCfg.rollback cfgExt stDemo (some 20) true =
      (Except.error "please use `btm` tool in `External` mode", stDemo, []) ∧
    BtmCfg.get_sorted_snapshots cfgExt stDemo =
      Except.error "please use `btm` tool in `External` mode" ∧
    BtmCfg.snapshot cfgExt stDemo 5 =
      (Except.ok (), stDemo,
       [Effect.sync, Effect.createSnap SnapMode.External cfgExt.volume 5]) :=
  external_mode_gap cfgExt stDemo (some 20) true 5 rfl rfl

/-- C6: on an enabled snapshot request, any create effect in the trace is
strictly preceded by the durable sync (flush): the flush always comes
first, for every backend mode. -/
theorem sync_before_create (cfg : BtmCfg) (st : Backend) (h : Nat)
    (he : cfg.enable = true) :
    ∀ i m v k,
      ((cfg.snapshot st h).2.2).get? i = some (Effect.createSnap m v k) →
      ∃ j, j < i ∧ ((cfg.snapshot st h).2.2).get? j = some Effect.sync := by
  intro i m v k hi
  have htr : ∃ rest, (cfg.snapshot st h).2.2 = Effect.sync :: rest := by
    refine ⟨((match cfg.mode with
      | SnapMode.Zfs => driverGenSnapshot SnapMode.Zfs cfg st h
      | SnapMode.Btrfs => driverGenSnapshot SnapMode.Btrfs cfg st h
      | SnapMode.External => externalGenSnapshot cfg st h).2.2), ?_⟩
    simp [BtmCfg.snapshot, he]
  obtain ⟨rest, htr⟩ := htr
  rw [htr] at hi
  cases i with
  | zero => simp at hi
  | succ n => exact ⟨0, Nat.succ_pos n, by simp [htr]⟩

/-- Closed instance of `sync_before_create`: in the demo world's snapshot
trace the create sits at index 1 and the sync before it at index 0. -/
theorem sync_before_create_witness :
    ∃ j, j < 1 ∧
      ((BtmCfg.snapshot cfgZfs stDemo 7).2.2).get? j = some Effect.sync :=
  sync_before_create cfgZfs stDemo 7 rfl 1 SnapMode.Zfs "zfs/data" 7 (by decide)

/-- The modelled drivers' rollback: rejects under strict mode when a newer
snapshot exists, otherwise reverts and keeps only heights at most the
target. -/
theorem driverRollback_facts (mode : SnapMode) (cfg : BtmCfg) (st : Backend)
    (t : Nat) (hl : st.listOk = true) (ht : t ∈ st.snaps) :
    ((∃ x ∈ st.snaps, t < x) →
      driverRollback mode cfg st (some t) true =
        (Except.error "StrictRollbackRejected", st, [])) ∧
    driverRollback mode cfg st (some t) false =
      (Except.ok (), { st with snaps := st.snaps.filter (fun x => x ≤ t) },
       [Effect.revert mode cfg.volume t]) := by
  constructor
  · intro hnew
    have hany : st.snaps.any (fun x => t < x) = true := by
      rw [List.any_eq_true]
      obtain ⟨x, hx, hlt⟩ := hnew
      exact ⟨x, hx, by simpa using hlt⟩
    unfold driverRollback driverSortedSnapshots
    simp [hl, ht, hany]
  · unfold driverRollback driverSortedSnapshots
    simp [hl, ht]

/-- In any non-`External` mode with a healthy listing, the orchestrator's
listing is the backend's snapshot set. -/
theorem get_sorted_snapshots_ok (cfg : BtmCfg) (st : Backend)
    (hm : cfg.mode ≠ SnapMode.External) (hl : st.listOk = true) :
    cfg.get_sorted_snapshots st = Except.ok st.snaps := by
  cases hcm : cfg.mode with
  | External => exact absurd hcm hm
  | Zfs => simp [BtmCfg.get_sorted_snapshots, hcm, driverSortedSnapshots, hl]
  | Btrfs => simp [BtmCfg.get_sorted_snapshots, hcm, driverSortedSnapshots, hl]

/-- C4: for a target height present in the snapshot set, rollback with
`strict = true` fails with `StrictRollbackRejected` whenever a strictly
newer snapshot exists; with `strict = false` the same rollback succeeds
and the subsequent listing contains the target as its maximum with every
strictly newer height absent. -/
theorem rollback_strict_spec (cfg : BtmCfg) (st : Backend) (t : Nat)
    (hm : cfg.mode ≠ SnapMode.External) (hl : st.listOk = true)
    (ht : t ∈ st.snaps) :
    ((∃ x ∈ st.snaps, t < x) →
      (cfg.rollback st (some t) true).1 = Except.error "StrictRollbackRejected") ∧
    (cfg.rollback st (some t) false).1 = Except.ok () ∧
    (∃ l, cfg.get_sorted_snapshots (cfg.rollback st (some t) false).2.1 =
        Except.ok l ∧
      t ∈ l ∧ (∀ x ∈ l, x ≤ t) ∧ (∀ x, t < x → x ∉ l)) := by
  have hfilter₁ : t ∈ st.snaps.filter (fun x => x ≤ t) := by
    simp [List.mem_filter, ht]
  have hfilter₂ : ∀ x ∈ st.snaps.filter (fun x => x ≤ t), x ≤ t := by
    intro x hx
    simpa using (List.mem_filter.mp hx).2
  have hfilter₃ : ∀ x, t < x → x ∉ st.snaps.filter (fun x => x ≤ t) := by
    intro x hlt hx
    have := (List.mem_filter.mp hx).2
    simp at this
    omega
  cases hcm : cfg.mode with
  | External => exact absurd hcm hm
  | Zfs =>
    have hfacts := driverRollback_facts SnapMode.Zfs cfg st t hl ht
    refine ⟨fun hnew => ?_, ?_, ?_⟩
    · simp [BtmCfg.rollback, hcm, hfacts.1 hnew]
    · simp [BtmCfg.rollback, hcm, hfacts.2]
    · refine ⟨st.snaps.filter (fun x => x ≤ t), ?_, hfilter₁, hfilter₂, hfilter₃⟩
      simp [BtmCfg.rollback, hcm, hfacts.2, BtmCfg.get_sorted_snapshots,
            driverSortedSnapshots, hl]
  | Btrfs =>
    have hfacts := driverRollback_facts SnapMode.Btrfs cfg st t hl ht
    refine ⟨fun hnew => ?_, ?_, ?_⟩
    · simp [BtmCfg.rollback, hcm, hfacts.1 hnew]
    · simp [BtmCfg.rollback, hcm, hfacts.2]
    · refine ⟨st.snaps.filter (fun x => x ≤ t), ?_, hfilter₁, hfilter₂, hfilter₃⟩
      simp [BtmCfg.rollback, hcm, hfacts.2, BtmCfg.get_sorted_snapshots,
            driverSortedSnapshots, hl]

/-- Closed instance of `rollback_strict_spec` on snapshots
`{10, 20, 30}` with target 20: strict fails, non-strict succeeds and 30
is absent from the resulting listing. -/
theorem rollback_strict_spec_witness :
    (BtmCfg.rollback cfgZfs stDemo (some 20) true).1 =
      Except.error "StrictRollbackRejected" ∧
    (BtmCfg.rollback cfgZfs stDemo (some 20) false).1 = Except.ok () ∧
    (∃ l, BtmCfg.get_sorted_snapshots cfgZfs
        (BtmCfg.rollback cfgZfs stDemo (some 20) false).2.1 = Except.ok l ∧
      20 ∈ l ∧ (∀ x ∈ l, x ≤ 20) ∧ (∀ x, 20 < x → x ∉ l)) := by
  have h := rollback_strict_spec cfgZfs stDemo 20 (by decide) rfl (by decide)
  exact ⟨h.1 ⟨30, by decide, by decide⟩, h.2.1, h.2.2⟩

/-- A nodup list filtered down to the elements not occurring in its own
drop is exactly its take. -/
theorem filter_not_mem_drop (l : List Nat) (n : Nat) (hnd : l.Nodup) :
    l.filter (fun h => !decide (h ∈ l.drop n)) = l.take n := by
  have hsplit : l.take n ++ l.drop n = l := List.take_append_drop n l
  have hdisj : ∀ x ∈ l.take n, x ∉ l.drop n := by
    have hnd2 : (l.take n ++ l.drop n).Nodup := by rw [hsplit]; exact hnd
    have h2 := (List.nodup_append.mp hnd2).2.2
    intro x hx hd
    exact h2 hx hd
  calc l.filter (fun h => !decide (h ∈ l.drop n))
      = (l.take n ++ l.drop n).filter (fun h => !decide (h ∈ l.drop n)) := by
        rw [hsplit]
    _ = (l.take n).filter (fun h => !decide (h ∈ l.drop n)) ++
        (l.drop n).filter (fun h => !decide (h ∈ l.drop n)) := by
        rw [List.filter_append]
    _ = l.take n ++ [] := by
        congr 1
        · rw [List.filter_eq_self]
          intro a ha
          simpa using hdisj a ha
        · rw [List.filter_eq_nil_iff]
          intro a ha
          simp [ha]
    _ = l.take n := by simp

/-- C7: over a unique snapshot set whose deletions all succeed, a prune
keeps exactly the `cap_clean_kept` newest heights, issues one delete
command per older height, does nothing when the set is small enough, and
is independent of the configured capacity. -/
theorem clean_keeps_most_recent (cfg : BtmCfg) (st : Backend)
    (hm : cfg.mode ≠ SnapMode.External) (hl : st.listOk = true)
    (hnd : st.snaps.Nodup) (hdel : ∀ k, st.deleteOk k = true) :
    (cfg.clean_snapshots st).2.1.snaps = st.snaps.take cfg.cap_clean_kept ∧
    (cfg.clean_snapshots st).2.2 =
      ((st.snaps.drop cfg.cap_clean_kept).reverse).map
        (fun k => Effect.execCmd (delCmd cfg.mode cfg.volume k)) ∧
    (st.snaps.length ≤ cfg.cap_clean_kept →
      (cfg.clean_snapshots st).2.2 = [] ∧
      (cfg.clean_snapshots st).2.1.snaps = st.snaps) ∧
    (∀ c, BtmCfg.clean_snapshots { cfg with cap := c } st =
      cfg.clean_snapshots st) := by
  have hok := get_sorted_snapshots_ok cfg st hm hl
  have hsnaps : (cfg.clean_snapshots st).2.1.snaps =
      st.snaps.take cfg.cap_clean_kept := by
    unfold BtmCfg.clean_snapshots
    rw [hok]
    show st.snaps.filter _ = _
    have hpred : (fun h =>
        !(decide (h ∈ st.snaps.drop cfg.cap_clean_kept) && st.deleteOk h)) =
        (fun h => !decide (h ∈ st.snaps.drop cfg.cap_clean_kept)) := by
      funext h
      rw [hdel h]
      simp
    rw [hpred]
    exact filter_not_mem_drop _ _ hnd
  have htrace : (cfg.clean_snapshots st).2.2 =
      ((st.snaps.drop cfg.cap_clean_kept).reverse).map
        (fun k => Effect.execCmd (delCmd cfg.mode cfg.volume k)) := by
    unfold BtmCfg.clean_snapshots
    rw [hok]
  refine ⟨hsnaps, htrace, fun hlen => ⟨?_, ?_⟩, fun c => rfl⟩
  · rw [htrace, List.drop_eq_nil_of_le hlen]
    rfl
  · rw [hsnaps]
    exact List.take_of_length_le hlen

/-- Closed instance of `clean_keeps_most_recent`: keeping 2 of
`[30, 20, 10]` deletes only height 10. -/
theorem clean_keeps_most_recent_witness :
    (BtmCfg.clean_snapshots cfgKeep2 stDemo).2.1.snaps = [30, 20] ∧
    (BtmCfg.clean_snapshots cfgKeep2 stDemo).2.2 =
      [Effect.execCmd "zfs destroy zfs/data@10"] := by
  have h := clean_keeps_most_recent cfgKeep2 stDemo (by decide) rfl
    (by decide) (fun k => rfl)
  exact ⟨h.1.trans (by decide), h.2.1.trans (by decide)⟩

/-- C8: pruning is best-effort — its result and the commands it issues do
not depend on whether the per-height delete commands succeed, and the
operation fails only when the listing itself fails. -/
theorem clean_best_effort (cfg : BtmCfg) (st : Backend)
    (hm : cfg.mode ≠ SnapMode.External) :
    (st.listOk = true → ∀ d : Nat → Bool,
      (BtmCfg.clean_snapshots cfg { st with deleteOk := d }).1 =
        Except.ok () ∧
      (BtmCfg.clean_snapshots cfg { st with deleteOk := d }).2.2 =
        (cfg.clean_snapshots st).2.2) ∧
    (st.listOk = false →
      (cfg.clean_snapshots st).1 = Except.error "ListFailed") := by
  constructor
  · intro hl d
    have hok := get_sorted_snapshots_ok cfg { st with deleteOk := d } hm hl
    have hok2 := get_sorted_snapshots_ok cfg st hm hl
    constructor
    · unfold BtmCfg.clean_snapshots
      rw [hok]
    · unfold BtmCfg.clean_snapshots
      rw [hok, hok2]
  · intro hl
    have herr : cfg.get_sorted_snapshots st = Except.error "ListFailed" := by
      cases hcm : cfg.mode with
      | External => exact absurd hcm hm
      | Zfs => simp [BtmCfg.get_sorted_snapshots, hcm, driverSortedSnapshots, hl]
      | Btrfs => simp [BtmCfg.get_sorted_snapshots, hcm, driverSortedSnapshots, hl]
    unfold BtmCfg.clean_snapshots
    rw [herr]

/-- Closed instance of `clean_best_effort`: with every delete command
failing, the prune still succeeds and issues the same commands. -/
theorem clean_best_effort_witness :
    (BtmCfg.clean_snapshots cfgZfs { stDemo with deleteOk := fun _ => false }).1 =
      Except.ok () ∧
    (BtmCfg.clean_snapshots cfgZfs { stDemo with deleteOk := fun _ => false }).2.2 =
      (BtmCfg.clean_snapshots cfgZfs stDemo).2.2 :=
  (clean_best_effort cfgZfs stDemo (by decide)).1 rfl (fun _ => false)

/-- C9: the deletion commands built during a prune reference the snapshot
by the name `"<volume>@<height>"`, for both the Zfs and Btrfs backends,
and every command a prune issues is such a per-height delete command. -/
theorem prune_cmd_names_snapshot (v : String) (k : Nat) (cfg : BtmCfg)
    (st : Backend) (e : Effect) (he : e ∈ (cfg.clean_snapshots st).2.2) :
    delCmd SnapMode.Zfs v k = "zfs destroy " ++ snapName v k ∧
    delCmd SnapMode.Btrfs v k = "btrfs subvolume delete " ++ snapName v k ∧
    ∃ hh, e = Effect.execCmd (delCmd cfg.mode cfg.volume hh) := by
  refine ⟨?_, ?_, ?_⟩
  · simp [delCmd, snapName, String.append_assoc]
  · simp [delCmd, snapName, String.append_assoc]
  · unfold BtmCfg.clean_snapshots at he
    cases hq : cfg.get_sorted_snapshots st with
    | error s =>
      rw [hq] at he
      simp at he
    | ok list =>
      rw [hq] at he
      simp only [List.mem_map] at he
      obtain ⟨a, _, ha⟩ := he
      exact ⟨a, ha.symm⟩

/-- Closed instance of `prune_cmd_names_snapshot` at volume `zfs/data`
and height 10. -/
theorem prune_cmd_names_snapshot_witness :
    delCmd SnapMode.Zfs "zfs/data" 10 =
      "zfs destroy " ++ snapName "zfs/data" 10 ∧
    delCmd SnapMode.Btrfs "zfs/data" 10 =
      "btrfs subvolume delete " ++ snapName "zfs/data" 10 ∧
    ∃ hh, Effect.execCmd "zfs destroy zfs/data@10" =
      Effect.execCmd (delCmd cfgZfs.mode cfgZfs.volume hh) :=
  prune_cmd_names_snapshot "zfs/data" 10 cfgZfs stDemo
    (Effect.execCmd "zfs destroy zfs/data@10") (by decide)

end Btm
